import Mathlib

/-!
Verification of the OSCAHR proxy scenario (proxy.py and prompt.py).

The development shallowly embeds the registry store, the service directory
manager and the lifecycle coordinator of src/proxy_scenario/proxy.py.
Python dictionaries are modelled as association lists with unique keys
(a parsed JSON object never has duplicate keys); raising code is modelled
with Except or with an explicit outcome parameter for calls into the
external Control-Protocol Client.
-/

/-! ## JSON level: the registry store (proxy.py 470-525) -/

/-- A parsed JSON value, as produced by json.loads. Only the shapes that the
registry file can contain are needed: strings, numbers and objects. An
object keeps its fields in insertion order, exactly as a Python dict does. -/
inductive Json where
  | jstr (s : String)
  | jnum (n : Int)
  | jobj (fields : List (String × Json))

/-- The parsed top level object of smarthomedevices.json: device name to
device record, in file order. -/
abbrev RawFile := List (String × Json)

/-- The TypeError raised by validation inside get_registered_devices,
carrying the offending device (and client) name. clientsNotMapping models
the AttributeError raised when device_value.clients is not an object and
.items() is called on it. -/
inductive LoadError where
  | structureMismatch (device : String)
  | invalidIpAddress (device : String)
  | invalidPort (device : String)
  | invalidOnionAddress (device : String)
  | invalidKey (device : String) (client : String)
  | clientsNotMapping (device : String)
deriving DecidableEq

/-- The four validation callbacks of common/validation.py consumed by
get_registered_devices. common/validation.py is not under src, so the load
logic is parameterised over them; a concrete spec-modelled instance is
given below. Each receives the raw JSON value stored in the field. -/
structure Validators where
  ip : Json → Bool
  portv : Json → Bool
  onion : Json → Bool
  key : Json → Bool

/-- Keys of a parsed JSON object in insertion order: Python list(device_value). -/
def keysOf (fields : List (String × Json)) : List String := fields.map Prod.fst

/-- Python dict lookup device_value of a key. The callers only use it after
the exact key list check, so the key is always present; the default is never
reached. -/
def getField (fields : List (String × Json)) (k : String) : Json :=
  match fields.find? (fun p => p.1 == k) with
  | some p => p.2
  | none => Json.jnum 0

/-- The required key list of proxy.py line 489, in this exact order. -/
def requiredKeys : List String := ["ip_address", "port", "onion_address", "clients"]

/-- The loop of proxy.py 512-516: validate every client public key of a
device, first offender raises. -/
def validateClientList (V : Validators) (dname : String) :
    List (String × Json) → Except LoadError Unit
  | [] => .ok ()
  | p :: rest =>
      if V.key p.2 then validateClientList V dname rest
      else .error (.invalidKey dname p.1)

/-- Validation of the clients field: the code iterates device_value of
clients with .items(), which requires a JSON object. -/
def validateClients (V : Validators) (dname : String) : Json → Except LoadError Unit
  | .jobj cs => validateClientList V dname cs
  | _ => .error (.clientsNotMapping dname)

/-- Per-device validation of proxy.py 490-516, checks in source order: the
exact key list (an order-sensitive list comparison), then IP address, port,
onion address and every client key. -/
def validateDevice (V : Validators) (dname : String) : Json → Except LoadError Unit
  | .jobj fields =>
      if keysOf fields = requiredKeys then
        if V.ip (getField fields "ip_address") then
          if V.portv (getField fields "port") then
            if V.onion (getField fields "onion_address") then
              validateClients V dname (getField fields "clients")
            else .error (.invalidOnionAddress dname)
          else .error (.invalidPort dname)
        else .error (.invalidIpAddress dname)
      else .error (.structureMismatch dname)
  | _ => .error (.structureMismatch dname)

/-- The device loop of proxy.py 490-516 over the parsed file. -/
def validateDevices (V : Validators) : List (String × Json) → Except LoadError Unit
  | [] => .ok ()
  | p :: rest =>
      match validateDevice V p.1 p.2 with
      | .ok _ => validateDevices V rest
      | .error e => .error e

/-- get_registered_devices (proxy.py 470-518): none models an absent file
(empty registry returned), some f models a present file whose parsed content
is f. On success the parsed content is returned unchanged. -/
def get_registered_devices (V : Validators) (file : Option RawFile) :
    Except LoadError RawFile :=
  match file with
  | none => .ok []
  | some f =>
      match validateDevices V f with
      | .ok _ => .ok f
      | .error e => .error e

/-- set_registered_devices (proxy.py 520-525) at the JSON level: the file
content after the save is json.dumps of the in-memory registry, which as a
JSON mapping is the registry itself. -/
def save_registered_devices (r : RawFile) : RawFile := r

/-- The spec-side per-entry predicate (spec 4.1 and 6, with the key order
the code actually demands): exactly the required field list in this order,
each field accepted by its validator, and every client key accepted. -/
def deviceEntryValid (V : Validators) : Json → Bool
  | .jobj fields =>
      keysOf fields == requiredKeys
      && V.ip (getField fields "ip_address")
      && V.portv (getField fields "port")
      && V.onion (getField fields "onion_address")
      && (match getField fields "clients" with
          | .jobj cs => cs.all (fun p => V.key p.2)
          | _ => false)
  | _ => false

/-! ### Spec-modelled concrete validators

common/validation.py is not under src. Modelled from the spec: IP address
well-formedness (IPv4 dotted quad or a textual IPv6 form), port range
1-65535, version 3 onion address format (56 base32 characters followed by
the .onion suffix), and a fixed-alphabet base32 public key. -/

/-- Digits of a dotted quad part to a number. -/
def digitsToNat (cs : List Char) : Nat :=
  cs.foldl (fun n c => n * 10 + (c.toNat - 48)) 0

/-- Split a character list on the dot character. -/
def splitOnDot : List Char → List (List Char)
  | [] => [[]]
  | c :: cs =>
      let rest := splitOnDot cs
      if c == '.' then [] :: rest
      else
        match rest with
        | r :: rs => (c :: r) :: rs
        | [] => [[c]]

/-- Modelled from the spec: a well-formed IPv4 dotted quad. -/
def isIPv4String (s : String) : Bool :=
  let parts := splitOnDot s.data
  parts.length == 4 &&
    parts.all (fun p => !p.isEmpty && p.all Char.isDigit && decide (digitsToNat p ≤ 255))

/-- Modelled from the spec: a textual IPv6 address contains a colon and
only hexadecimal digits and colons. -/
def isIPv6String (s : String) : Bool :=
  s.data.contains ':' &&
    s.data.all (fun c =>
      c.isDigit || decide ('a' ≤ c ∧ c ≤ 'f') || decide ('A' ≤ c ∧ c ≤ 'F') || c == ':')

/-- Models the check type(ipaddress.ip_address(x)) is IPv6Address of
proxy.py 149 and 248 on an already validated address: the textual forms of
the two families are told apart by the presence of a colon. -/
def isIPv6Address (s : String) : Bool := s.data.contains ':'

/-- Lower case base32 alphabet character. -/
def isBase32Lower (c : Char) : Bool :=
  decide ('a' ≤ c ∧ c ≤ 'z') || decide ('2' ≤ c ∧ c ≤ '7')

/-- Upper case base32 alphabet character. -/
def isBase32Upper (c : Char) : Bool :=
  decide ('A' ≤ c ∧ c ≤ 'Z') || decide ('2' ≤ c ∧ c ≤ '7')

/-- Modelled from the spec: validate_ip_address of common/validation.py. -/
def validate_ip_address : Json → Bool
  | .jstr s => isIPv4String s || isIPv6String s
  | _ => false

/-- Modelled from the spec: validate_port, an integer in 1-65535. -/
def validate_port : Json → Bool
  | .jnum n => decide (1 ≤ n ∧ n ≤ 65535)
  | _ => false

/-- Modelled from the spec: validate_onion_v3_address, 56 base32 characters
followed by the .onion suffix. -/
def validate_onion_v3_address : Json → Bool
  | .jstr s =>
      decide (s.data.length = 62)
      && (s.data.take 56).all isBase32Lower
      && s.data.drop 56 == ".onion".data
  | _ => false

/-- Modelled from the spec: validate_base32_key, a 52 character base32
encoded public key. -/
def validate_base32_key : Json → Bool
  | .jstr s => decide (s.data.length = 52) && s.data.all isBase32Upper
  | _ => false

/-- The concrete validator bundle used by the proxy. -/
def oscahrValidators : Validators :=
  { ip := validate_ip_address, portv := validate_port,
    onion := validate_onion_v3_address, key := validate_base32_key }

/-! ## Structured level: the lifecycle coordinator (proxy.py 75-468) -/

/-- A validated device record, the value of one registry entry. Clients is
the Python dict mapping client name to public key, as an association list in
insertion order with unique keys. -/
structure Device where
  ip_address : String
  port : Int
  onion_address : String
  clients : List (String × String)
deriving DecidableEq

/-- The in-memory registered_devices dictionary. -/
abbrev Registry := List (String × Device)

/-- One onion service directory: the client authorization artifact files it
holds, named by client name. The key material inside the directory is opaque
to the coordinator and not modelled. -/
structure DeviceDir where
  authFiles : List String
deriving DecidableEq

/-- The onion_services tree: one directory per device name. -/
abbrev Fs := List (String × DeviceDir)

/-- The state the coordinator reconciles: the in-memory registry, the
current content of smarthomedevices.json, the log of every snapshot written
to that file by the traced operations (most recent last), and the service
directory tree. -/
structure ProxyState where
  registered_devices : Registry
  file : Registry
  saves : List Registry
  fs : Fs
deriving DecidableEq

/-- set_registered_devices (proxy.py 520-525): overwrite the persisted file
with the serialized in-memory registry; the write is also appended to the
snapshot log. -/
def set_registered_devices (st : ProxyState) : ProxyState :=
  { st with file := st.registered_devices, saves := st.saves ++ [st.registered_devices] }

/-- Python dict lookup on the registry: first (and only) binding of a key. -/
def lookupDevice : Registry → String → Option Device
  | [], _ => none
  | p :: rest, d => if p.1 == d then some p.2 else lookupDevice rest d

/-- The clients dict of a device, empty if the device is absent. -/
def clientsOf : Registry → String → List (String × String)
  | [], _ => []
  | p :: rest, d => if p.1 == d then p.2.clients else clientsOf rest d

/-- The authorization files of a device directory, empty if the directory
is absent. -/
def authFilesOf : Fs → String → List String
  | [], _ => []
  | p :: rest, d => if p.1 == d then p.2.authFiles else authFilesOf rest d

/-- Existence test for a device directory (pathlib exists of proxy.py 434). -/
def dirExists : Fs → String → Bool
  | [], _ => false
  | p :: rest, d => if p.1 == d then true else dirExists rest d

/-- Modelled from the spec: hasAnyClientAuthorization of the Control-Protocol
Client (tor.check_existing_onion_service_auth, common/tor_server.py is not
under src) reports whether any client authorization artifact remains in the
device directory; false when the directory is absent. -/
def check_existing_onion_service_auth (fs : Fs) (d : String) : Bool :=
  !(authFilesOf fs d).isEmpty

/-- Python dict update with a single binding: replace the value in place if
the key exists, otherwise append the binding. -/
def dictUpdate (r : Registry) (k : String) (v : Device) : Registry :=
  if r.any (fun p => p.1 == k) then
    r.map (fun p => (p.1, if p.1 == k then v else p.2))
  else r ++ [(k, v)]

/-- Python dict update on a clients dict. -/
def clientsUpdate (cs : List (String × String)) (c k : String) : List (String × String) :=
  if cs.any (fun p => p.1 == c) then
    cs.map (fun p => (p.1, if p.1 == c then k else p.2))
  else cs ++ [(c, k)]

/-- Removal of one client authorization artifact file (the unlink of
proxy.py 454-456). The callers guarantee the device directory and the file
exist; on a missing key the Python call would raise, which no modelled
execution reaches. -/
def removeAuthFile (fs : Fs) (d c : String) : Fs :=
  fs.map (fun p =>
    (p.1, if p.1 == d then { p.2 with authFiles := p.2.authFiles.filter (fun x => x != c) }
          else p.2))

/-- Writing one client authorization artifact file into a device directory. -/
def addAuthFile (fs : Fs) (d c : String) : Fs :=
  fs.map (fun p =>
    (p.1, if p.1 == d then
            { p.2 with authFiles := if p.2.authFiles.contains c then p.2.authFiles
                                    else p.2.authFiles ++ [c] }
          else p.2))

/-- Renaming a device directory (pathlib replace of proxy.py 288). -/
def renameFsDir (fs : Fs) (oldName newName : String) : Fs :=
  fs.map (fun p => if p.1 == oldName then (newName, p.2) else p)

/-- Errors surfaced by the coordinator operations. -/
inductive OpError where
  | fileNotFound
  | torFailure
  | fsFailure
  | keyMissing
deriving DecidableEq

/-- Modelled from the spec: createService of the Control-Protocol Client
(tor.create_disk_v3_onion_service, common/tor_server.py is not under src).
On success it creates the device directory with the initial client
authorization artifact and returns the new onion address; on failure the
exception propagates and nothing is created on disk. The outcome parameter
is the oracle for the external call. -/
def create_disk_v3_onion_service (outcome : Option String) (fs : Fs)
    (dev client : String) : Except OpError (String × Fs) :=
  match outcome with
  | some addr => .ok (addr, fs ++ [(dev, { authFiles := [client] })])
  | none => .error .torFailure

/-- Modelled from the spec: addClientAuthorization of the Control-Protocol
Client (tor.add_disk_v3_onion_service_auth). On success the artifact file is
written into the device directory; on failure the filesystem is unchanged. -/
def add_disk_v3_onion_service_auth (outcome : Bool) (fs : Fs)
    (dev client : String) : Except OpError Fs :=
  if outcome then .ok (addAuthFile fs dev client) else .error .torFailure

/-- start_proxy (proxy.py 75-106): for every registered device ask the
Control-Protocol Client to start its onion service with the stored port and
IP address; count a device as started exactly when the returned address
equals the stored onion address, otherwise only warn. The loop reads the
registry and never writes it or the persisted file. tor_start is the oracle
for the external start call, keyed by directory name, port and IP address. -/
def start_proxy (tor_start : String → Int → String → String) (st : ProxyState) :
    Nat × ProxyState :=
  let service_counter := st.registered_devices.foldl
    (fun acc p =>
      if tor_start p.1 p.2.port p.2.ip_address == p.2.onion_address then acc + 1 else acc) 0
  (service_counter, st)

/-- add_device (proxy.py 140-191), after the prompt layer has delivered the
validated inputs: reject an IPv6 address with nothing mutated; otherwise ask
the Control-Protocol Client to create the onion service, and only on success
build the device record, add it to the registry and persist. -/
def add_device (outcome : Option String) (st : ProxyState)
    (device_name ip_address : String) (port : Int)
    (client_name public_key : String) : Except OpError Unit × ProxyState :=
  if isIPv6Address ip_address then (.ok (), st)
  else
    match create_disk_v3_onion_service outcome st.fs device_name client_name with
    | .error e => (.error e, st)
    | .ok (onion_service_address, fs1) =>
        let new_device : Device :=
          { ip_address := ip_address, port := port,
            onion_address := onion_service_address,
            clients := [(client_name, public_key)] }
        let r1 := dictUpdate st.registered_devices device_name new_device
        let st1 := { st with fs := fs1, registered_devices := r1 }
        (.ok (), set_registered_devices st1)

/-- delete_device (proxy.py 193-205): recursively remove the device
directory, pop the registry entry, persist. -/
def delete_device (st : ProxyState) (device_name : String) : ProxyState :=
  let st1 := { st with fs := st.fs.filter (fun p => p.1 != device_name) }
  let st2 := { st1 with
    registered_devices := st1.registered_devices.filter (fun p => p.1 != device_name) }
  set_registered_devices st2

/-- delete_client (proxy.py 445-468): unlink the client authorization
artifact, pop the client from the registry, persist; then, if no client
authorization artifact remains in the device directory, cascade into
delete_device. -/
def delete_client (st : ProxyState) (device_name client_name : String) : ProxyState :=
  let st1 := { st with fs := removeAuthFile st.fs device_name client_name }
  let r1 := st1.registered_devices.map (fun p =>
    (p.1, if p.1 == device_name then
            { p.2 with clients := p.2.clients.filter (fun q => q.1 != client_name) }
          else p.2))
  let st2 := { st1 with registered_devices := r1 }
  let st3 := set_registered_devices st2
  if check_existing_onion_service_auth st3.fs device_name then st3
  else delete_device st3 device_name

/-- The rename branch of manage_registered_devices (proxy.py 282-297):
move the device directory first; only then swap the registry key (pop the
old binding, insert the value under the new name) and persist. moveOk is
the oracle for the filesystem move; on failure the raise propagates before
any registry mutation. The device is registered when this branch runs; an
absent key would raise KeyError after the move. -/
def rename_device (moveOk : Bool) (st : ProxyState)
    (device_name new_device_name : String) : Except OpError Unit × ProxyState :=
  if moveOk then
    let fs1 := renameFsDir st.fs device_name new_device_name
    match lookupDevice st.registered_devices device_name with
    | none => (.error .keyMissing, { st with fs := fs1 })
    | some v =>
        let r1 := st.registered_devices.filter (fun p => p.1 != device_name)
                    ++ [(new_device_name, v)]
        (.ok (), set_registered_devices { st with fs := fs1, registered_devices := r1 })
  else (.error .fsFailure, st)

/-- The change IP address branch of manage_registered_devices (proxy.py
241-260), after the prompt layer delivered the new address: reject an IPv6
address with nothing mutated (the continue of line 252); otherwise assign
the ip_address field of the device and persist. -/
def change_ip_address (st : ProxyState) (device_name ip_address : String) : ProxyState :=
  if isIPv6Address ip_address then st
  else
    let r1 := st.registered_devices.map (fun p =>
      (p.1, if p.1 == device_name then { p.2 with ip_address := ip_address } else p.2))
    set_registered_devices { st with registered_devices := r1 }

/-- The change webinterface port branch of manage_registered_devices
(proxy.py 263-274): assign the port field of the device and persist. -/
def change_webinterface_port (st : ProxyState) (device_name : String) (port : Int) :
    ProxyState :=
  let r1 := st.registered_devices.map (fun p =>
    (p.1, if p.1 == device_name then { p.2 with port := port } else p.2))
  set_registered_devices { st with registered_devices := r1 }

/-- The duplicate predicate of prompt_ip_address with a port given
(common/prompt.py 100-107) and identically of prompt_port with an IP address
given (common/prompt.py 177-183): the candidate pair is flagged and the
prompt loops again exactly when some registered device, with no exclusion of
the device currently being changed, already has this IP address and port. -/
def duplicate_ip_port (registered_devices : Registry) (ip_address : String)
    (port : Int) : Bool :=
  registered_devices.any (fun p => p.2.ip_address == ip_address && p.2.port == port)

/-- add_client (proxy.py 420-443): fail with FileNotFoundError when the
device directory does not exist; otherwise write the client authorization
artifact through the Control-Protocol Client (outcome is its oracle), and
only then update the clients dict of the device and persist. -/
def add_client (outcome : Bool) (st : ProxyState)
    (device_name client_name public_key : String) : Except OpError Unit × ProxyState :=
  if !dirExists st.fs device_name then (.error .fileNotFound, st)
  else
    match add_disk_v3_onion_service_auth outcome st.fs device_name client_name with
    | .error e => (.error e, st)
    | .ok fs1 =>
        let r1 := st.registered_devices.map (fun p =>
          (p.1, if p.1 == device_name then
                  { p.2 with clients := clientsUpdate p.2.clients client_name public_key }
                else p.2))
        let st1 := { st with fs := fs1, registered_devices := r1 }
        (.ok (), set_registered_devices st1)

/-! ## Concrete instances used by the theorems below -/

/-- A valid version 3 onion address literal: 56 base32 characters and the
.onion suffix. -/
def onionAddrStr : String :=
  "abcdefghijklmnopqrstuvwxyz234567abcdefghijklmnopqrstuvwx.onion"

/-- A valid 52 character base32 public key literal. -/
def pubKeyStr : String :=
  "ABCDEFGHIJKLMNOPQRSTUVWXYZ234567ABCDEFGHIJKLMNOPQRST"

/-- The field list of a device record written in a different insertion
order than the required one, every value valid. -/
def permutedFields : List (String × Json) :=
  [("port", Json.jnum 8080),
   ("ip_address", Json.jstr "10.0.0.5"),
   ("onion_address", Json.jstr onionAddrStr),
   ("clients", Json.jobj [("c1", Json.jstr pubKeyStr)])]

/-- A persisted file whose single device has the required field set in a
permuted order. -/
def permutedFile : RawFile := [("A", Json.jobj permutedFields)]

/-- A well-formed persisted file with one device. -/
def wellFormedFile : RawFile :=
  [("A", Json.jobj
    [("ip_address", Json.jstr "10.0.0.5"),
     ("port", Json.jnum 8080),
     ("onion_address", Json.jstr onionAddrStr),
     ("clients", Json.jobj [("c1", Json.jstr pubKeyStr)])])]

/-- A persisted file that violates every cross-device invariant while every
entry passes the per-entry checks: devices A and B share the IP address and
port pair and the onion address, and the clients mapping of A is empty. -/
def crossInvalidFile : RawFile :=
  [("A", Json.jobj
    [("ip_address", Json.jstr "10.0.0.5"),
     ("port", Json.jnum 8080),
     ("onion_address", Json.jstr onionAddrStr),
     ("clients", Json.jobj [])]),
   ("B", Json.jobj
    [("ip_address", Json.jstr "10.0.0.5"),
     ("port", Json.jnum 8080),
     ("onion_address", Json.jstr onionAddrStr),
     ("clients", Json.jobj [("c1", Json.jstr pubKeyStr)])])]

/-- The device record of the cascade example of the spec (section 8). -/
def deviceA : Device :=
  { ip_address := "10.0.0.5", port := 8080, onion_address := "abcd...onion",
    clients := [("c1", "KEY1")] }

/-- The coordinator state holding exactly device A with its single client
c1, consistent with its service directory, with an empty snapshot log. -/
def stateA : ProxyState :=
  { registered_devices := [("A", deviceA)], file := [("A", deviceA)],
    saves := [], fs := [("A", { authFiles := ["c1"] })] }

/-! ## Helper lemmas -/

theorem validateClientList_ok_iff (V : Validators) (dname : String)
    (cs : List (String × Json)) :
    validateClientList V dname cs = .ok () ↔ cs.all (fun p => V.key p.2) = true := by
  induction cs with
  | nil => simp [validateClientList]
  | cons p rest ih => cases h : V.key p.2 <;> simp [validateClientList, h, ih]

theorem validateDevice_ok_iff (V : Validators) (n : String) (dv : Json) :
    validateDevice V n dv = .ok () ↔ deviceEntryValid V dv = true := by
  cases dv with
  | jstr s => simp [validateDevice, deviceEntryValid]
  | jnum m => simp [validateDevice, deviceEntryValid]
  | jobj fields =>
      by_cases hk : keysOf fields = requiredKeys
      · cases hip : V.ip (getField fields "ip_address")
        · simp [validateDevice, deviceEntryValid, hk, hip]
        · cases hpo : V.portv (getField fields "port")
          · simp [validateDevice, deviceEntryValid, hk, hip, hpo]
          · cases hon : V.onion (getField fields "onion_address")
            · simp [validateDevice, deviceEntryValid, hk, hip, hpo, hon]
            · cases hcl : getField fields "clients" with
              | jstr s =>
                  simp [validateDevice, deviceEntryValid, hk, hip, hpo, hon, hcl,
                        validateClients]
              | jnum m =>
                  simp [validateDevice, deviceEntryValid, hk, hip, hpo, hon, hcl,
                        validateClients]
              | jobj cs =>
                  simp [validateDevice, deviceEntryValid, hk, hip, hpo, hon, hcl,
                        validateClients, validateClientList_ok_iff]
      · simp [validateDevice, deviceEntryValid, hk]

theorem validateDevices_ok_iff (V : Validators) (f : List (String × Json)) :
    validateDevices V f = .ok () ↔ ∀ p ∈ f, deviceEntryValid V p.2 = true := by
  induction f with
  | nil => simp [validateDevices]
  | cons p rest ih =>
      cases h : validateDevice V p.1 p.2 with
      | ok u =>
          cases u
          have hv : deviceEntryValid V p.2 = true := (validateDevice_ok_iff V p.1 p.2).mp h
          simp [validateDevices, h, hv, ih]
      | error e =>
          have hv : deviceEntryValid V p.2 = false := by
            cases hvv : deviceEntryValid V p.2
            · rfl
            · exact absurd ((validateDevice_ok_iff V p.1 p.2).mpr hvv) (by simp [h])
          simp [validateDevices, h, hv]

/-! ## Claim theorems: registry store -/

theorem get_registered_devices_some (V : Validators) (f : RawFile) :
    get_registered_devices V (some f)
      = match validateDevices V f with
        | .ok _ => .ok f
        | .error e => .error e := rfl

/-- C5 counterexample: a persisted file whose single device A carries
exactly the required field set, but in the insertion order port, ip_address,
onion_address, clients, with every value valid, is rejected by load with a
structure error for device A, although the claim says the field order is
irrelevant. The remaining conjuncts certify that the field list is a
permutation of the required one and that every field value passes its
validator. -/
theorem load_rejects_permuted_field_order :
    get_registered_devices oscahrValidators (some permutedFile)
      = .error (.structureMismatch "A")
    ∧ (keysOf permutedFields).Perm requiredKeys
    ∧ oscahrValidators.ip (getField permutedFields "ip_address") = true
    ∧ oscahrValidators.portv (getField permutedFields "port") = true
    ∧ oscahrValidators.onion (getField permutedFields "onion_address") = true
    ∧ (match getField permutedFields "clients" with
       | .jobj cs => cs.all (fun p => oscahrValidators.key p.2)
       | _ => false) = true :=
  ⟨rfl, by decide, rfl, rfl, rfl, rfl⟩

/-- C5 (amended): load returns the empty registry when the file is absent;
when the file is present it succeeds, returning the parsed registry
unchanged, if and only if every device entry has exactly the field list
ip_address, port, onion_address, clients in exactly this insertion order,
with each field accepted by its validator and every client public key
accepted; otherwise it fails with an error naming the offending device (or
client) and field, with no auto-repair. -/
theorem load_registry_characterization (V : Validators) (f : RawFile) :
    get_registered_devices V none = .ok []
    ∧ (get_registered_devices V (some f) = .ok f
        ↔ ∀ p ∈ f, deviceEntryValid V p.2 = true)
    ∧ ((∃ e, get_registered_devices V (some f) = .error e)
        ↔ ¬ ∀ p ∈ f, deviceEntryValid V p.2 = true) := by
  refine ⟨rfl, ?_, ?_⟩
  · rw [get_registered_devices_some]
    cases h : validateDevices V f with
    | ok u =>
        cases u
        exact ⟨fun _ => (validateDevices_ok_iff V f).mp h, fun _ => rfl⟩
    | error e =>
        constructor
        · intro hok; exact absurd hok (by simp)
        · intro hall
          exact absurd ((validateDevices_ok_iff V f).mpr hall) (by simp [h])
  · rw [get_registered_devices_some]
    cases h : validateDevices V f with
    | ok u =>
        cases u
        constructor
        · rintro ⟨e, he⟩; exact absurd he (by simp)
        · intro hnall; exact absurd ((validateDevices_ok_iff V f).mp h) hnall
    | error e =>
        constructor
        · intro _
          intro hall
          exact absurd ((validateDevices_ok_iff V f).mpr hall) (by simp [h])
        · intro _; exact ⟨e, rfl⟩

/-- C5 witness: the amended characterization applied at the concrete
validators and a concrete well-formed file. -/
theorem load_registry_characterization_witness :
    get_registered_devices oscahrValidators (some wellFormedFile) = .ok wellFormedFile :=
  (load_registry_characterization oscahrValidators wellFormedFile).2.1.mpr (by decide)

/-- C9: every persisted file that load accepts is reproduced exactly by
saving the loaded registry: load performs no transformation on success, so
the snapshot written by save equals the original file as a JSON mapping. -/
theorem save_load_roundtrip (V : Validators) (x r : RawFile)
    (h : get_registered_devices V (some x) = .ok r) :
    save_registered_devices r = x := by
  rw [get_registered_devices_some] at h
  cases hv : validateDevices V x with
  | ok u =>
      cases u
      rw [hv] at h
      simp only [save_registered_devices]
      exact ((Except.ok.injEq _ _).mp h).symm
  | error e => rw [hv] at h; exact absurd h (by simp)

/-- C9 witness: the round trip at a concrete accepted file. -/
theorem save_load_roundtrip_witness :
    get_registered_devices oscahrValidators (some wellFormedFile) = .ok wellFormedFile
    ∧ save_registered_devices wellFormedFile = wellFormedFile :=
  ⟨rfl, save_load_roundtrip oscahrValidators wellFormedFile wellFormedFile rfl⟩

/-- C10: load validates each device entry in isolation only: every file
whose entries all pass the per-entry checks is accepted and returned
unchanged, with no cross-device checks. The witness below exercises a file
with a duplicated IP and port pair, a duplicated onion address and an empty
clients mapping. -/
theorem load_accepts_entrywise_valid (V : Validators) (f : RawFile)
    (h : ∀ p ∈ f, deviceEntryValid V p.2 = true) :
    get_registered_devices V (some f) = .ok f := by
  rw [get_registered_devices_some, (validateDevices_ok_iff V f).mpr h]

/-- C10 witness: the file crossInvalidFile violates all three cross-device
invariants, every entry passes the per-entry checks, and load accepts it. -/
theorem load_accepts_entrywise_valid_witness :
    (∀ p ∈ crossInvalidFile, deviceEntryValid oscahrValidators p.2 = true)
    ∧ get_registered_devices oscahrValidators (some crossInvalidFile) = .ok crossInvalidFile :=
  ⟨by decide, load_accepts_entrywise_valid oscahrValidators crossInvalidFile (by decide)⟩

/-! ## Helper lemmas: coordinator state -/

theorem authFilesOf_removeAuthFile (fs : Fs) (d c : String) :
    authFilesOf (removeAuthFile fs d c) d
      = (authFilesOf fs d).filter (fun x => x != c) := by
  induction fs with
  | nil => rfl
  | cons p rest ih =>
      cases h : p.1 == d
      · simp [removeAuthFile, authFilesOf, h]
        simpa [removeAuthFile] using ih
      · simp [removeAuthFile, authFilesOf, h]

theorem map_fst_filter_ne (cs : List (String × String)) (c : String) :
    (cs.filter (fun q => q.1 != c)).map Prod.fst
      = (cs.map Prod.fst).filter (fun x => x != c) := by
  induction cs with
  | nil => rfl
  | cons q rest ih => cases h : q.1 != c <;> simp [List.filter_cons, h, ih]

theorem clientsOf_eq_of_mem (r : Registry) (hnd : (r.map Prod.fst).Nodup)
    (q : String × Device) (hq : q ∈ r) : clientsOf r q.1 = q.2.clients := by
  induction r with
  | nil => cases hq
  | cons a rest ih =>
      rw [List.map_cons, List.nodup_cons] at hnd
      cases hq with
      | head => simp [clientsOf]
      | tail _ hmem =>
          have hne : a.1 ≠ q.1 := by
            intro he
            exact hnd.1 (he ▸ List.mem_map_of_mem Prod.fst hmem)
          simp only [clientsOf]
          rw [if_neg (by simp [hne])]
          exact ih hnd.2 hmem

theorem lookupDevice_append (l1 l2 : Registry) (k : String) :
    lookupDevice (l1 ++ l2) k
      = match lookupDevice l1 k with
        | some v => some v
        | none => lookupDevice l2 k := by
  induction l1 with
  | nil => rfl
  | cons a rest ih => cases h : a.1 == k <;> simp [lookupDevice, h, ih]

theorem lookupDevice_filter_ne (r : Registry) (d k : String) (hk : k ≠ d) :
    lookupDevice (r.filter (fun p => p.1 != d)) k = lookupDevice r k := by
  induction r with
  | nil => rfl
  | cons a rest ih =>
      cases h : a.1 == d
      · have hkeep : (a.1 != d) = true := by simp [bne, h]
        simp [List.filter_cons, hkeep, lookupDevice, ih]
      · have ha : a.1 = d := by simpa using h
        have hdrop : (a.1 != d) = false := by simp [bne, h]
        have hhead : (a.1 == k) = false := by
          rw [ha]
          exact beq_false_of_ne (fun he => hk he.symm)
        simp [List.filter_cons, hdrop, lookupDevice, hhead, ih]

theorem lookupDevice_none_of_forall_ne (r : Registry) (k : String)
    (h : ∀ p ∈ r, p.1 ≠ k) : lookupDevice r k = none := by
  induction r with
  | nil => rfl
  | cons a rest ih =>
      have hhead : (a.1 == k) = false := by simp [h a (List.mem_cons_self a rest)]
      simp [lookupDevice, hhead, ih (fun p hp => h p (List.mem_cons_of_mem a hp))]

theorem lookupDevice_mapVals (r : Registry) (g : String → Device → Device) (k : String) :
    lookupDevice (r.map (fun p => (p.1, g p.1 p.2))) k
      = (lookupDevice r k).map (g k) := by
  induction r with
  | nil => rfl
  | cons a rest ih =>
      cases h : a.1 == k
      · simp [lookupDevice, h, ih]
      · have ha : a.1 = k := by simpa using h
        simp [lookupDevice, h, ha]

theorem foldl_count_filter (l : List (String × Device)) (q : String × Device → Bool)
    (n : Nat) :
    l.foldl (fun acc p => if q p then acc + 1 else acc) n = n + (l.filter q).length := by
  induction l generalizing n with
  | nil => simp
  | cons a rest ih =>
      cases h : q a
      · simp [List.foldl_cons, h, ih, List.filter_cons]
      · simp [List.foldl_cons, h, ih, List.filter_cons]
        omega

/-! ## Claim theorems: lifecycle coordinator -/

/-- C1 counterexample: starting from a state whose registry has no device
with zero clients (first conjunct), deleting the last client c1 of device A
writes two snapshots; the first, produced by the save inside delete_client
before the cascade check, still contains device A with an empty clients
mapping, so a device with zero clients does appear in a persisted snapshot. -/
theorem delete_client_persists_zero_client_device :
    stateA.registered_devices.filter (fun p => p.2.clients.isEmpty) = []
    ∧ (delete_client stateA "A" "c1").saves
        = [[("A", { deviceA with clients := [] })], []] := by decide

/-- C1 (amended): after delete_client runs to completion on a registry with
unique device names in which every device has at least one client and whose
authorization files for the target device agree with its clients mapping,
the final persisted snapshot (the file content, equal to the in-memory
registry) again contains no device with zero clients. The save performed
partway through delete_client is exempt: as the counterexample shows, it can
briefly persist the target device with an empty clients mapping before the
cascade removes it. -/
theorem delete_client_final_snapshot_invariant (st : ProxyState) (d c : String)
    (hnd : (st.registered_devices.map Prod.fst).Nodup)
    (hinv : ∀ p ∈ st.registered_devices, p.2.clients ≠ [])
    (hcons : authFilesOf st.fs d = (clientsOf st.registered_devices d).map Prod.fst) :
    (delete_client st d c).file = (delete_client st d c).registered_devices
    ∧ ∀ p ∈ (delete_client st d c).registered_devices, p.2.clients ≠ [] := by
  have hred : delete_client st d c
      = (if check_existing_onion_service_auth (removeAuthFile st.fs d c) d then
          set_registered_devices
            { st with fs := removeAuthFile st.fs d c,
                      registered_devices := st.registered_devices.map (fun p =>
                        (p.1, if p.1 == d then
                                { p.2 with clients := p.2.clients.filter (fun q => q.1 != c) }
                              else p.2)) }
        else
          delete_device
            (set_registered_devices
              { st with fs := removeAuthFile st.fs d c,
                        registered_devices := st.registered_devices.map (fun p =>
                          (p.1, if p.1 == d then
                                  { p.2 with clients := p.2.clients.filter (fun q => q.1 != c) }
                                else p.2)) }) d) := rfl
  by_cases hch : check_existing_onion_service_auth (removeAuthFile st.fs d c) d = true
  · rw [hred, if_pos hch]
    refine ⟨rfl, ?_⟩
    intro p hp
    replace hp : p ∈ st.registered_devices.map (fun p =>
        (p.1, if p.1 == d then
                { p.2 with clients := p.2.clients.filter (fun q => q.1 != c) }
              else p.2)) := hp
    obtain ⟨q, hq, rfl⟩ := List.mem_map.mp hp
    cases h : q.1 == d
    · simpa [h] using hinv q hq
    · have hqd : q.1 = d := by simpa using h
      simp only [h, if_true]
      have hne : authFilesOf (removeAuthFile st.fs d c) d ≠ [] := by
        intro hemp
        rw [check_existing_onion_service_auth, hemp] at hch
        simp at hch
      rw [authFilesOf_removeAuthFile, hcons, ← map_fst_filter_ne] at hne
      have hclients : clientsOf st.registered_devices d = q.2.clients := by
        rw [← hqd]
        exact clientsOf_eq_of_mem st.registered_devices hnd q hq
      rw [hclients] at hne
      intro hemp
      rw [hemp] at hne
      simp at hne
  · rw [hred, if_neg hch]
    refine ⟨rfl, ?_⟩
    intro p hp
    replace hp : p ∈ (st.registered_devices.map (fun p =>
        (p.1, if p.1 == d then
                { p.2 with clients := p.2.clients.filter (fun q => q.1 != c) }
              else p.2))).filter (fun p => p.1 != d) := hp
    have hp2 := List.mem_filter.mp hp
    obtain ⟨q, hq, rfl⟩ := List.mem_map.mp hp2.1
    cases h : q.1 == d
    · simpa [h] using hinv q hq
    · have hqd : q.1 = d := by simpa using h
      have hcontra := hp2.2
      simp [hqd] at hcontra

/-- C1 witness: the amended invariant applied at the concrete state holding
device A with its single client. -/
theorem delete_client_final_snapshot_invariant_witness :
    (delete_client stateA "A" "c1").file = (delete_client stateA "A" "c1").registered_devices
    ∧ ∀ p ∈ (delete_client stateA "A" "c1").registered_devices, p.2.clients ≠ [] :=
  delete_client_final_snapshot_invariant stateA "A" "c1" (by decide) (by decide) (by decide)

/-- C2: the cascade example of the spec: on the registry holding exactly
device A at 10.0.0.5 port 8080 with the single client c1, deleting client
c1 yields the empty registry, persists it, and removes the onion service
directory of device A. -/
theorem delete_client_cascade_example :
    (delete_client stateA "A" "c1").registered_devices = []
    ∧ (delete_client stateA "A" "c1").file = []
    ∧ dirExists (delete_client stateA "A" "c1").fs "A" = false := by decide

/-- C3: addDevice is all-or-nothing with respect to the Control-Protocol
Client: when the onion service creation call fails, the returned state — the
in-memory registry, the persisted file, the snapshot log and the service
directory tree — equals the state before the call; no partial device record
or directory is left behind. -/
theorem add_device_no_partial_state (st : ProxyState) (n ip : String) (p : Int)
    (c k : String) :
    (add_device none st n ip p c k).2 = st := by
  cases h : isIPv6Address ip <;>
    simp [add_device, create_disk_v3_onion_service, h]

/-- C4: startAll leaves the whole state unchanged — no registry entry is
rewritten and no snapshot is persisted — and the started count equals the
number of registered devices for which the address returned by the
Control-Protocol Client equals the stored onion address; a mismatched
device only draws a warning and is not counted. -/
theorem start_proxy_spec (tor_start : String → Int → String → String)
    (st : ProxyState) :
    (start_proxy tor_start st).2 = st
    ∧ (start_proxy tor_start st).1 =
        (st.registered_devices.filter
          (fun p => tor_start p.1 p.2.port p.2.ip_address == p.2.onion_address)).length := by
  refine ⟨rfl, ?_⟩
  have h := foldl_count_filter st.registered_devices
    (fun p => tor_start p.1 p.2.port p.2.ip_address == p.2.onion_address) 0
  rw [Nat.zero_add] at h
  exact h

/-- C6: renameDevice moves the device directory first: when the filesystem
move fails the whole state, registry in memory and on disk included, is
returned unchanged with a filesystem error. When the move succeeds, the old
binding is removed, the unchanged device value reappears under the new
name, every other device resolves as before, the new registry is persisted
and the directory tree holds the renamed directory. -/
theorem rename_device_spec (st : ProxyState) (oldName newName : String) (v : Device)
    (hold : lookupDevice st.registered_devices oldName = some v)
    (hnew : ∀ p ∈ st.registered_devices, p.1 ≠ newName) :
    rename_device false st oldName newName = (.error .fsFailure, st)
    ∧ lookupDevice (rename_device true st oldName newName).2.registered_devices newName
        = some v
    ∧ (∀ k, k ≠ oldName → k ≠ newName →
        lookupDevice (rename_device true st oldName newName).2.registered_devices k
          = lookupDevice st.registered_devices k)
    ∧ (rename_device true st oldName newName).2.file
        = (rename_device true st oldName newName).2.registered_devices
    ∧ (rename_device true st oldName newName).2.fs = renameFsDir st.fs oldName newName
    ∧ (rename_device true st oldName newName).1 = .ok () := by
  have hre : rename_device true st oldName newName
      = (.ok (), set_registered_devices
          { st with fs := renameFsDir st.fs oldName newName,
                    registered_devices :=
                      st.registered_devices.filter (fun p => p.1 != oldName)
                        ++ [(newName, v)] }) := by
    simp [rename_device, hold]
  refine ⟨rfl, ?_, ?_, ?_, ?_, ?_⟩
  · rw [hre]
    have hfil : lookupDevice
        (st.registered_devices.filter (fun p => p.1 != oldName)) newName = none := by
      apply lookupDevice_none_of_forall_ne
      intro p hp
      exact hnew p (List.mem_filter.mp hp).1
    have := lookupDevice_append
      (st.registered_devices.filter (fun p => p.1 != oldName)) [(newName, v)] newName
    rw [hfil] at this
    simpa [lookupDevice] using this
  · intro k hko hkn
    rw [hre]
    have := lookupDevice_append
      (st.registered_devices.filter (fun p => p.1 != oldName)) [(newName, v)] k
    rw [lookupDevice_filter_ne st.registered_devices oldName k hko] at this
    cases hl : lookupDevice st.registered_devices k with
    | some w => rw [hl] at this; simpa using this
    | none =>
        rw [hl] at this
        have hnk : (newName == k) = false := beq_false_of_ne (fun he => hkn he.symm)
        simpa [lookupDevice, hnk] using this
  · rw [hre]; rfl
  · rw [hre]; rfl
  · rw [hre]

/-- C6 witness: renaming device A to B on the concrete one-device state. -/
theorem rename_device_spec_witness :
    rename_device false stateA "A" "B" = (.error .fsFailure, stateA)
    ∧ lookupDevice (rename_device true stateA "A" "B").2.registered_devices "B"
        = some deviceA :=
  ⟨(rename_device_spec stateA "A" "B" deviceA (by decide) (by decide)).1,
   (rename_device_spec stateA "A" "B" deviceA (by decide) (by decide)).2.1⟩

theorem lookupDevice_setIp (r : Registry) (d newIp k : String) :
    lookupDevice (r.map (fun p =>
        (p.1, if p.1 == d then { p.2 with ip_address := newIp } else p.2))) k
      = (lookupDevice r k).map
          (fun v => if k == d then { v with ip_address := newIp } else v) := by
  induction r with
  | nil => rfl
  | cons a rest ih =>
      cases h : a.1 == k
      · simp [lookupDevice, h]
        simpa using ih
      · have ha : a.1 = k := by simpa using h
        simp [lookupDevice, h, ha]

theorem lookupDevice_setPort (r : Registry) (d k : String) (newPort : Int) :
    lookupDevice (r.map (fun p =>
        (p.1, if p.1 == d then { p.2 with port := newPort } else p.2))) k
      = (lookupDevice r k).map
          (fun v => if k == d then { v with port := newPort } else v) := by
  induction r with
  | nil => rfl
  | cons a rest ih =>
      cases h : a.1 == k
      · simp [lookupDevice, h]
        simpa using ih
      · have ha : a.1 = k := by simpa using h
        simp [lookupDevice, h, ha]

/-- C7: addClient fails with a not-found error and mutates nothing when the
device directory is absent, whatever the Control-Protocol Client would do;
when the directory exists, a failing artifact write leaves the state
unchanged with the error propagated, and a successful write is followed by
the client map update, its persistence, and the artifact appearing in the
directory. -/
theorem add_client_spec (st : ProxyState) (d c k : String) :
    (dirExists st.fs d = false →
        add_client false st d c k = (.error .fileNotFound, st)
        ∧ add_client true st d c k = (.error .fileNotFound, st))
    ∧ (dirExists st.fs d = true →
        add_client false st d c k = (.error .torFailure, st)
        ∧ (add_client true st d c k).1 = .ok ()
        ∧ (add_client true st d c k).2.registered_devices
            = st.registered_devices.map (fun p =>
                (p.1, if p.1 == d then
                        { p.2 with clients := clientsUpdate p.2.clients c k }
                      else p.2))
        ∧ (add_client true st d c k).2.file
            = (add_client true st d c k).2.registered_devices
        ∧ (add_client true st d c k).2.fs = addAuthFile st.fs d c
        ∧ (add_client true st d c k).2.saves
            = st.saves ++ [(add_client true st d c k).2.registered_devices]) := by
  constructor
  · intro h
    constructor <;> simp [add_client, h]
  · intro h
    refine ⟨?_, ?_, ?_, ?_, ?_, ?_⟩ <;>
      simp [add_client, h, add_disk_v3_onion_service_auth, set_registered_devices]

/-- C7 witness: adding client c2 to device A in the concrete state, for a
failing and for a succeeding artifact write. -/
theorem add_client_spec_witness :
    add_client false stateA "A" "c2" "KEY2" = (.error .torFailure, stateA)
    ∧ (add_client true stateA "A" "c2" "KEY2").2.registered_devices
        = [("A", { deviceA with clients := [("c1", "KEY1"), ("c2", "KEY2")] })] := by
  have h := (add_client_spec stateA "A" "c2" "KEY2").2 (by decide)
  exact ⟨h.1, by decide⟩

/-- C8 counterexample: device A occupies the pair 10.0.0.5 and 8080; the
only registered device carrying that pair is A itself (second conjunct), so
when the address of A itself is being changed the pair collides with no
other device, yet the duplicate predicate of the prompt layer flags it and
the prompt rejects the value with a warning and asks again. -/
theorem duplicate_check_includes_self :
    duplicate_ip_port stateA.registered_devices "10.0.0.5" 8080 = true
    ∧ (stateA.registered_devices.filter
        (fun p => p.2.ip_address == "10.0.0.5" && p.2.port == 8080)).map Prod.fst
      = ["A"] := by decide

/-- C8 (amended): the network change operations are pure registry
mutations: an IPv6 address is rejected with the whole state unchanged; the
duplicate predicate that rejects a candidate pair holds exactly when some
registered device — including the device being changed itself — already
carries the pair; and an accepted change updates exactly the ip_address
(respectively port) field of the target device, leaves every other device
unchanged, persists the result and does not touch the directory tree. -/
theorem change_device_network_spec (st : ProxyState) (d newIp : String)
    (newPort : Int) :
    (isIPv6Address newIp = true → change_ip_address st d newIp = st)
    ∧ (duplicate_ip_port st.registered_devices newIp newPort = true
        ↔ ∃ p ∈ st.registered_devices, p.2.ip_address = newIp ∧ p.2.port = newPort)
    ∧ (isIPv6Address newIp = false →
        lookupDevice (change_ip_address st d newIp).registered_devices d
            = (lookupDevice st.registered_devices d).map
                (fun v => { v with ip_address := newIp })
        ∧ (∀ k, k ≠ d →
            lookupDevice (change_ip_address st d newIp).registered_devices k
              = lookupDevice st.registered_devices k)
        ∧ (change_ip_address st d newIp).file
            = (change_ip_address st d newIp).registered_devices
        ∧ (change_ip_address st d newIp).fs = st.fs)
    ∧ (lookupDevice (change_webinterface_port st d newPort).registered_devices d
          = (lookupDevice st.registered_devices d).map
              (fun v => { v with port := newPort })
        ∧ (∀ k, k ≠ d →
            lookupDevice (change_webinterface_port st d newPort).registered_devices k
              = lookupDevice st.registered_devices k)
        ∧ (change_webinterface_port st d newPort).file
            = (change_webinterface_port st d newPort).registered_devices
        ∧ (change_webinterface_port st d newPort).fs = st.fs) := by
  refine ⟨?_, ?_, ?_, ?_, ?_, ?_, ?_⟩
  · intro h
    simp [change_ip_address, h]
  · simp [duplicate_ip_port, List.any_eq_true]
  · intro h
    have hreg : (change_ip_address st d newIp).registered_devices
        = st.registered_devices.map (fun p =>
            (p.1, if p.1 == d then { p.2 with ip_address := newIp } else p.2)) := by
      simp [change_ip_address, h, set_registered_devices]
    refine ⟨?_, ?_, ?_, ?_⟩
    · rw [hreg, lookupDevice_setIp]
      simp
    · intro k hk
      rw [hreg, lookupDevice_setIp]
      have hkd : (k == d) = false := beq_false_of_ne hk
      cases lookupDevice st.registered_devices k <;> simp [hkd]
    · simp [change_ip_address, h, set_registered_devices]
    · simp [change_ip_address, h, set_registered_devices]
  · have hreg : (change_webinterface_port st d newPort).registered_devices
        = st.registered_devices.map (fun p =>
            (p.1, if p.1 == d then { p.2 with port := newPort } else p.2)) := by
      simp [change_webinterface_port, set_registered_devices]
    rw [hreg, lookupDevice_setPort]
    simp
  · intro k hk
    have hreg : (change_webinterface_port st d newPort).registered_devices
        = st.registered_devices.map (fun p =>
            (p.1, if p.1 == d then { p.2 with port := newPort } else p.2)) := by
      simp [change_webinterface_port, set_registered_devices]
    rw [hreg, lookupDevice_setPort]
    have hkd : (k == d) = false := beq_false_of_ne hk
    cases lookupDevice st.registered_devices k <;> simp [hkd]
  · simp [change_webinterface_port, set_registered_devices]
  · simp [change_webinterface_port, set_registered_devices]

/-- C8 witness: on the concrete state, an IPv6 address is rejected without
mutation and an accepted IPv4 change rewrites only the address field of
device A. -/
theorem change_device_network_spec_witness :
    change_ip_address stateA "A" "fe80::1" = stateA
    ∧ lookupDevice (change_ip_address stateA "A" "10.0.0.6").registered_devices "A"
        = some { deviceA with ip_address := "10.0.0.6" } := by
  have h1 := (change_device_network_spec stateA "A" "fe80::1" (8080 : Int)).1 (by decide)
  have h2 := ((change_device_network_spec stateA "A" "10.0.0.6" (8080 : Int)).2.2.1
    (by decide)).1
  exact ⟨h1, by rw [h2]; decide⟩
